import Mathlib

/-!
Verification of the au integration layer of the qh repository, the file
qh/au_integration.py. The adapter classes AuTaskStore and AuTaskExecutor
are shallowly embedded. The external au library is modelled as an oracle
(AuWorld) that gives, for each task id, membership in the au store and
the outcome of the status query and of the zero-wait result query; a
Python exception raised by an au call is modelled by the error case of
Except, carrying the message str(e). The clock reads made inside one
adapter call are modelled by a single `now` argument standing for the
value of time.time() during that call.
-/

/-- Modelled from the spec: the status vocabulary of qh task records.
The module qh.async_tasks that defines TaskStatus is not among the
provided source files; section 3 of the spec lists PENDING, RUNNING,
COMPLETED, FAILED and the backend-optional CANCELLED. -/
inductive TaskStatus where
  | pending
  | running
  | completed
  | failed
  | cancelled
  deriving DecidableEq, Repr

/-- Modelled from the spec: terminal states are COMPLETED, FAILED or
CANCELLED (spec glossary). -/
def TaskStatus.isTerminal : TaskStatus → Bool
  | TaskStatus.completed => true
  | TaskStatus.failed => true
  | TaskStatus.cancelled => true
  | _ => false

/-- Modelled from the spec: the TaskRecord data model of section 3. The
module qh.async_tasks that defines TaskInfo is not among the provided
source files; the fields follow the spec and the uses of TaskInfo in
qh/au_integration.py. Result values are kept as opaque strings. -/
structure TaskInfo where
  task_id : String
  status : TaskStatus
  created_at : Nat
  completed_at : Option Nat
  result : Option String
  error : Option String
  deriving DecidableEq, Repr

/-- The status enum of the external au library. The four values the
adapter lists in its translation table are given as constructors; the
constructor `other` stands for any unmapped or unknown value of the
external vocabulary, against which the source defends with the default
of mapping.get. -/
inductive ComputationStatus where
  | pending
  | running
  | completed
  | failed
  | other (value : String)
  deriving DecidableEq, Repr

/-- Oracle model of the external au store at one moment: membership of a
task id, the outcome of au_get_status, and the outcome of the zero-wait
au_get_result probe. An error value models a raised exception with the
given message. -/
structure AuWorld where
  contains : String → Bool
  getStatus : String → Except String ComputationStatus
  getResult : String → Except String String

/-- Identity of an external au ComputationStore object, for the
composition helpers. -/
inductive ComputationStoreRef where
  | fileSystemStore (path : String) (ttl_seconds : Nat)
  | defaultStore
  deriving DecidableEq, Repr

/-- Identity of an external au ComputationBackend object. -/
inductive ComputationBackendRef where
  | threadBackend (store : ComputationStoreRef)
  | processBackend (store : ComputationStoreRef)
  | defaultBackend
  deriving DecidableEq, Repr

/-- The adapter class AuTaskStore of qh/au_integration.py: it holds the
au store it adapts. -/
structure AuTaskStore where
  au_store : ComputationStoreRef
  deriving DecidableEq, Repr

/-- The adapter class AuTaskExecutor of qh/au_integration.py: it holds
the au backend and the au store it adapts. -/
structure AuTaskExecutor where
  au_backend : ComputationBackendRef
  au_store : ComputationStoreRef
  deriving DecidableEq, Repr

/-- Modelled from the spec: TaskConfig, the composition root binding one
TaskStore and one TaskExecutor (section 2). The module qh.async_tasks
that defines it is not among the provided source files; the fields are
specialised to the adapter components that use_au_backend passes. -/
structure TaskConfig where
  store : AuTaskStore
  executor : AuTaskExecutor
  deriving DecidableEq, Repr

/-- The method _au_status_to_qh_status of AuTaskStore: the explicit
translation table, with mapping.get defaulting every unmapped value to
PENDING. -/
def AuTaskStore.au_status_to_qh_status : ComputationStatus → TaskStatus
  | ComputationStatus.pending => TaskStatus.pending
  | ComputationStatus.running => TaskStatus.running
  | ComputationStatus.completed => TaskStatus.completed
  | ComputationStatus.failed => TaskStatus.failed
  | ComputationStatus.other _ => TaskStatus.pending

/-- The method create_task of AuTaskStore: builds the synthetic PENDING
snapshot and leaves the au store untouched, since au creates records
when submitting. The world is threaded to make the absence of an
external effect expressible. -/
def AuTaskStore.create_task (w : AuWorld) (task_id : String)
    (func_name : String) (now : Nat) : AuWorld × TaskInfo :=
  (w,
    { task_id := task_id
      status := TaskStatus.pending
      created_at := now
      completed_at := none
      result := none
      error := none })

/-- The method get_task of AuTaskStore. Mirrors the source: unknown id
gives none; the status query is wrapped in the outer try whose handler
returns None; on COMPLETED the zero-wait result probe is attempted and a
failure of the probe is swallowed by the bare except; on FAILED a raised
result fetch supplies the error message. created_at is stamped with the
read-time clock, as the source comment notes that au does not expose
creation time. -/
def AuTaskStore.get_task (w : AuWorld) (task_id : String) (now : Nat) :
    Option TaskInfo :=
  if w.contains task_id then
    match w.getStatus task_id with
    | Except.error _ => none
    | Except.ok au_status =>
      let task_info : TaskInfo :=
        { task_id := task_id
          status := AuTaskStore.au_status_to_qh_status au_status
          created_at := now
          completed_at := none
          result := none
          error := none }
      match au_status with
      | ComputationStatus.completed =>
        match w.getResult task_id with
        | Except.ok result =>
            some { task_info with result := some result, completed_at := some now }
        | Except.error _ => some task_info
      | ComputationStatus.failed =>
        match w.getResult task_id with
        | Except.ok _ => some task_info
        | Except.error e =>
            some { task_info with error := some e, completed_at := some now }
      | _ => some task_info
  else
    none

/-- The method update_task of AuTaskStore: the body is pass, so the
external state is returned unchanged. -/
def AuTaskStore.update_task (w : AuWorld) (task_info : TaskInfo) : AuWorld :=
  w

/-- The method delete_task of AuTaskStore: if the id is in the au store
it is deleted and True is returned, otherwise False. -/
def AuTaskStore.delete_task (w : AuWorld) (task_id : String) : AuWorld × Bool :=
  if w.contains task_id then
    ({ contains := fun k => if k == task_id then false else w.contains k
       getStatus := w.getStatus
       getResult := w.getResult }, true)
  else
    (w, false)

/-- One call of the launch primitive of the external au backend, with
the arguments the adapter passes. -/
structure LaunchCall where
  func : String
  args : List String
  kwargs : List (String × String)
  key : String
  deriving DecidableEq, Repr

/-- Trace model of the external au backend: the list of launch calls it
has received. -/
structure AuBackendState where
  launches : List LaunchCall
  deriving DecidableEq, Repr

/-- One invocation of the on_complete callback, with the arguments the
qh contract gives it. -/
structure CallbackCall where
  task_id : String
  result : Option String
  error : Option String
  deriving DecidableEq, Repr

/-- The method submit_task of AuTaskExecutor: the body is the single
statement self.au_backend.launch(func, args, kwargs, task_id). The
returned pair is the backend trace extended with that one launch call
and the list of callback invocations the method makes, which is empty
because the callback is never used. -/
def AuTaskExecutor.submit_task (b : AuBackendState) (task_id : String)
    (func : String) (args : List String) (kwargs : List (String × String))
    (callback : String → Option String → Option String → Unit) :
    AuBackendState × List CallbackCall :=
  ({ launches := b.launches ++
      [{ func := func, args := args, kwargs := kwargs, key := task_id }] }, [])

/-- The function use_au_backend of qh/au_integration.py: resolves the
optional backend and store against the au defaults, builds AuTaskStore
over the store and AuTaskExecutor over the backend and the same store,
and returns the TaskConfig binding them. -/
def use_au_backend (backend : Option ComputationBackendRef)
    (store : Option ComputationStoreRef) : TaskConfig :=
  let backend := backend.getD ComputationBackendRef.defaultBackend
  let store := store.getD ComputationStoreRef.defaultStore
  { store := { au_store := store }
    executor := { au_backend := backend, au_store := store } }

/-- The function use_au_thread_backend: builds a FileSystemStore, a
ThreadBackend over it, and hands both to use_au_backend. -/
def use_au_thread_backend (storage_path : String) (ttl_seconds : Nat) :
    TaskConfig :=
  let store := ComputationStoreRef.fileSystemStore storage_path ttl_seconds
  let backend := ComputationBackendRef.threadBackend store
  use_au_backend (some backend) (some store)

/-- The function use_au_process_backend: builds a FileSystemStore, a
ProcessBackend over it, and hands both to use_au_backend. -/
def use_au_process_backend (storage_path : String) (ttl_seconds : Nat) :
    TaskConfig :=
  let store := ComputationStoreRef.fileSystemStore storage_path ttl_seconds
  let backend := ComputationBackendRef.processBackend store
  use_au_backend (some backend) (some store)

/-- If the id is not in the au store, get_task returns none. -/
theorem AuTaskStore.get_task_of_not_contains (w : AuWorld) (id : String)
    (now : Nat) (h : w.contains id = false) :
    AuTaskStore.get_task w id now = none := by
  unfold AuTaskStore.get_task
  simp [h]

/-- If the status query raises, get_task returns none. -/
theorem AuTaskStore.get_task_of_status_error (w : AuWorld) (id : String)
    (now : Nat) (e : String) (h : w.getStatus id = Except.error e) :
    AuTaskStore.get_task w id now = none := by
  unfold AuTaskStore.get_task
  cases hc : w.contains id
  · simp [hc]
  · simp [hc, h]

/-- On an au PENDING status, get_task returns the bare PENDING record. -/
theorem AuTaskStore.get_task_ok_pending (w : AuWorld) (id : String)
    (now : Nat) (hc : w.contains id = true)
    (hs : w.getStatus id = Except.ok ComputationStatus.pending) :
    AuTaskStore.get_task w id now =
      some { task_id := id, status := TaskStatus.pending, created_at := now,
             completed_at := none, result := none, error := none } := by
  unfold AuTaskStore.get_task
  simp [hc, hs, AuTaskStore.au_status_to_qh_status]

/-- On an au RUNNING status, get_task returns the bare RUNNING record. -/
theorem AuTaskStore.get_task_ok_running (w : AuWorld) (id : String)
    (now : Nat) (hc : w.contains id = true)
    (hs : w.getStatus id = Except.ok ComputationStatus.running) :
    AuTaskStore.get_task w id now =
      some { task_id := id, status := TaskStatus.running, created_at := now,
             completed_at := none, result := none, error := none } := by
  unfold AuTaskStore.get_task
  simp [hc, hs, AuTaskStore.au_status_to_qh_status]

/-- On an unknown au status value, get_task returns the bare PENDING
record. -/
theorem AuTaskStore.get_task_ok_other (w : AuWorld) (id : String)
    (now : Nat) (v : String) (hc : w.contains id = true)
    (hs : w.getStatus id = Except.ok (ComputationStatus.other v)) :
    AuTaskStore.get_task w id now =
      some { task_id := id, status := TaskStatus.pending, created_at := now,
             completed_at := none, result := none, error := none } := by
  unfold AuTaskStore.get_task
  simp [hc, hs, AuTaskStore.au_status_to_qh_status]

/-- On an au COMPLETED status with a successful zero-wait probe,
get_task returns the COMPLETED record carrying the result. -/
theorem AuTaskStore.get_task_completed_ok (w : AuWorld) (id : String)
    (now : Nat) (r : String) (hc : w.contains id = true)
    (hs : w.getStatus id = Except.ok ComputationStatus.completed)
    (hr : w.getResult id = Except.ok r) :
    AuTaskStore.get_task w id now =
      some { task_id := id, status := TaskStatus.completed, created_at := now,
             completed_at := some now, result := some r, error := none } := by
  unfold AuTaskStore.get_task
  simp [hc, hs, hr, AuTaskStore.au_status_to_qh_status]

/-- On an au COMPLETED status whose zero-wait probe raises, get_task
still returns the COMPLETED record, with result absent. -/
theorem AuTaskStore.get_task_completed_error (w : AuWorld) (id : String)
    (now : Nat) (e : String) (hc : w.contains id = true)
    (hs : w.getStatus id = Except.ok ComputationStatus.completed)
    (hr : w.getResult id = Except.error e) :
    AuTaskStore.get_task w id now =
      some { task_id := id, status := TaskStatus.completed, created_at := now,
             completed_at := none, result := none, error := none } := by
  unfold AuTaskStore.get_task
  simp [hc, hs, hr, AuTaskStore.au_status_to_qh_status]

/-- On an au FAILED status whose result fetch does not raise, get_task
returns the bare FAILED record. -/
theorem AuTaskStore.get_task_failed_ok (w : AuWorld) (id : String)
    (now : Nat) (r : String) (hc : w.contains id = true)
    (hs : w.getStatus id = Except.ok ComputationStatus.failed)
    (hr : w.getResult id = Except.ok r) :
    AuTaskStore.get_task w id now =
      some { task_id := id, status := TaskStatus.failed, created_at := now,
             completed_at := none, result := none, error := none } := by
  unfold AuTaskStore.get_task
  simp [hc, hs, hr, AuTaskStore.au_status_to_qh_status]

/-- On an au FAILED status whose result fetch raises, get_task returns
the FAILED record carrying the message of the raised exception. -/
theorem AuTaskStore.get_task_failed_error (w : AuWorld) (id : String)
    (now : Nat) (e : String) (hc : w.contains id = true)
    (hs : w.getStatus id = Except.ok ComputationStatus.failed)
    (hr : w.getResult id = Except.error e) :
    AuTaskStore.get_task w id now =
      some { task_id := id, status := TaskStatus.failed, created_at := now,
             completed_at := some now, result := none, error := some e } := by
  unfold AuTaskStore.get_task
  simp [hc, hs, hr, AuTaskStore.au_status_to_qh_status]

/-- Every record get_task returns carries the queried id, the read-time
clock as created_at, never both a result and an error, and no result or
error while non-terminal. -/
theorem AuTaskStore.get_task_some_cases (w : AuWorld) (id : String)
    (now : Nat) (info : TaskInfo)
    (hget : AuTaskStore.get_task w id now = some info) :
    info.task_id = id ∧ info.created_at = now
    ∧ (info.result = none ∨ info.error = none)
    ∧ (TaskStatus.isTerminal info.status = true
        ∨ (info.result = none ∧ info.error = none)) := by
  cases hc : w.contains id with
  | false =>
    rw [AuTaskStore.get_task_of_not_contains w id now hc] at hget
    exact Option.noConfusion hget
  | true =>
    cases hs : w.getStatus id with
    | error e =>
      rw [AuTaskStore.get_task_of_status_error w id now e hs] at hget
      exact Option.noConfusion hget
    | ok s =>
      cases s with
      | pending =>
        rw [AuTaskStore.get_task_ok_pending w id now hc hs] at hget
        have h := Option.some.inj hget
        subst h
        exact ⟨rfl, rfl, Or.inl rfl, Or.inr ⟨rfl, rfl⟩⟩
      | running =>
        rw [AuTaskStore.get_task_ok_running w id now hc hs] at hget
        have h := Option.some.inj hget
        subst h
        exact ⟨rfl, rfl, Or.inl rfl, Or.inr ⟨rfl, rfl⟩⟩
      | other v =>
        rw [AuTaskStore.get_task_ok_other w id now v hc hs] at hget
        have h := Option.some.inj hget
        subst h
        exact ⟨rfl, rfl, Or.inl rfl, Or.inr ⟨rfl, rfl⟩⟩
      | completed =>
        cases hr : w.getResult id with
        | ok r =>
          rw [AuTaskStore.get_task_completed_ok w id now r hc hs hr] at hget
          have h := Option.some.inj hget
          subst h
          exact ⟨rfl, rfl, Or.inr rfl, Or.inl rfl⟩
        | error e =>
          rw [AuTaskStore.get_task_completed_error w id now e hc hs hr] at hget
          have h := Option.some.inj hget
          subst h
          exact ⟨rfl, rfl, Or.inl rfl, Or.inl rfl⟩
      | failed =>
        cases hr : w.getResult id with
        | ok r =>
          rw [AuTaskStore.get_task_failed_ok w id now r hc hs hr] at hget
          have h := Option.some.inj hget
          subst h
          exact ⟨rfl, rfl, Or.inl rfl, Or.inl rfl⟩
        | error e =>
          rw [AuTaskStore.get_task_failed_error w id now e hc hs hr] at hget
          have h := Option.some.inj hget
          subst h
          exact ⟨rfl, rfl, Or.inl rfl, Or.inl rfl⟩

/-- A world in which every id is present but the status query raises. -/
def statusErrorWorld : AuWorld where
  contains := fun _ => true
  getStatus := fun _ => Except.error "disk unavailable"
  getResult := fun _ => Except.error "disk unavailable"

/-- A world in which every id is present, the status query reports
COMPLETED, and the zero-wait result probe raises. -/
def resultRaceWorld : AuWorld where
  contains := fun _ => true
  getStatus := fun _ => Except.ok ComputationStatus.completed
  getResult := fun _ => Except.error "result not yet written"

/-- A world in which every id is present and reported PENDING. -/
def pendingWorld : AuWorld where
  contains := fun _ => true
  getStatus := fun _ => Except.ok ComputationStatus.pending
  getResult := fun _ => Except.error "not done"

/-- The record get_task returns for id t4 at time 2 in pendingWorld. -/
def pendingInfo : TaskInfo :=
  { task_id := "t4", status := TaskStatus.pending, created_at := 2,
    completed_at := none, result := none, error := none }

/-- Claim C1: the status translation of the adapter is a total function
from the external status vocabulary into the set PENDING, RUNNING,
COMPLETED, FAILED; every external value maps to exactly one of the four,
and any unmapped or unknown external value maps to PENDING, which is not
a terminal state. -/
theorem C1_status_translation_total (s : ComputationStatus) (v : String) :
    (AuTaskStore.au_status_to_qh_status s = TaskStatus.pending
      ∨ AuTaskStore.au_status_to_qh_status s = TaskStatus.running
      ∨ AuTaskStore.au_status_to_qh_status s = TaskStatus.completed
      ∨ AuTaskStore.au_status_to_qh_status s = TaskStatus.failed)
    ∧ AuTaskStore.au_status_to_qh_status (ComputationStatus.other v)
        = TaskStatus.pending
    ∧ TaskStatus.isTerminal
        (AuTaskStore.au_status_to_qh_status (ComputationStatus.other v))
        = false := by
  refine ⟨?_, rfl, rfl⟩
  cases s <;> simp [AuTaskStore.au_status_to_qh_status]

/-- Claim C2, counterexample: in a world where the id t1 exists in the
external store but the status query raises, get_task returns none, so an
underlying I/O failure is silently converted into absence rather than
surfacing as a StoreUnavailableError. -/
theorem C2_counterexample :
    statusErrorWorld.contains "t1" = true
    ∧ AuTaskStore.get_task statusErrorWorld "t1" 7 = none :=
  ⟨rfl, rfl⟩

/-- Claim C2 as amended: when the status query of the external system
raises, get_task swallows the failure and returns none, even for an id
that exists in the external store; no StoreUnavailableError is raised
anywhere in the adapter. -/
theorem C2_amended_status_error_absence (w : AuWorld) (id : String)
    (now : Nat) (e : String) (hc : w.contains id = true)
    (h : w.getStatus id = Except.error e) :
    AuTaskStore.get_task w id now = none :=
  AuTaskStore.get_task_of_status_error w id now e h

/-- Claim C2, witness for the amended theorem at a concrete world. -/
theorem C2_amended_witness :
    statusErrorWorld.getStatus "t2" = Except.error "disk unavailable"
    ∧ AuTaskStore.get_task statusErrorWorld "t2" 9 = none :=
  ⟨rfl, C2_amended_status_error_absence statusErrorWorld "t2" 9
    "disk unavailable" rfl rfl⟩

/-- Claim C3: when the external status is COMPLETED and the zero-wait
result fetch raises, get_task still returns a record whose status is
COMPLETED and whose result is absent. -/
theorem C3_completed_probe_failure (w : AuWorld) (id : String) (now : Nat)
    (e : String) (hc : w.contains id = true)
    (hs : w.getStatus id = Except.ok ComputationStatus.completed)
    (hr : w.getResult id = Except.error e) :
    AuTaskStore.get_task w id now =
      some { task_id := id, status := TaskStatus.completed, created_at := now,
             completed_at := none, result := none, error := none } :=
  AuTaskStore.get_task_completed_error w id now e hc hs hr

/-- Claim C3, witness at a concrete world exhibiting the race. -/
theorem C3_witness :
    resultRaceWorld.getStatus "t3" = Except.ok ComputationStatus.completed
    ∧ AuTaskStore.get_task resultRaceWorld "t3" 4 =
        some { task_id := "t3", status := TaskStatus.completed, created_at := 4,
               completed_at := none, result := none, error := none } :=
  ⟨rfl, C3_completed_probe_failure resultRaceWorld "t3" 4
    "result not yet written" rfl rfl rfl⟩

/-- Claim C4: every record produced by the adapter store never carries
both a result and an error, carries neither while its status is
non-terminal, and the snapshot of create_task carries neither. -/
theorem C4_result_error_exclusive (w : AuWorld) (id func_name : String)
    (now : Nat) (info : TaskInfo)
    (hget : AuTaskStore.get_task w id now = some info) :
    (info.result = none ∨ info.error = none)
    ∧ (TaskStatus.isTerminal info.status = true
        ∨ (info.result = none ∧ info.error = none))
    ∧ (AuTaskStore.create_task w id func_name now).2.result = none
    ∧ (AuTaskStore.create_task w id func_name now).2.error = none := by
  have h := AuTaskStore.get_task_some_cases w id now info hget
  exact ⟨h.2.2.1, h.2.2.2, rfl, rfl⟩

/-- Claim C4, witness at a concrete world reporting PENDING. -/
theorem C4_witness :
    AuTaskStore.get_task pendingWorld "t4" 2 = some pendingInfo
    ∧ ((pendingInfo.result = none ∨ pendingInfo.error = none)
       ∧ (TaskStatus.isTerminal pendingInfo.status = true
           ∨ (pendingInfo.result = none ∧ pendingInfo.error = none))
       ∧ (AuTaskStore.create_task pendingWorld "t4" "f" 2).2.result = none
       ∧ (AuTaskStore.create_task pendingWorld "t4" "f" 2).2.error = none) :=
  ⟨rfl, C4_result_error_exclusive pendingWorld "t4" "f" 2 pendingInfo rfl⟩

/-- Claim C5, counterexample: two get_task reads of the same task of the
same world at clock values 0 and 1 return records whose created_at
fields differ, so created_at is not fixed at creation. -/
theorem C5_counterexample :
    (AuTaskStore.get_task pendingWorld "t1" 0).map TaskInfo.created_at = some 0
    ∧ (AuTaskStore.get_task pendingWorld "t1" 1).map TaskInfo.created_at = some 1
    ∧ (some 0 : Option Nat) ≠ some 1 := by
  refine ⟨rfl, rfl, by decide⟩

/-- Claim C5 as amended: get_task stamps created_at with the clock of
the read, since au does not expose the creation time, so two reads at
different clock values return different created_at values; create_task
stamps the creation-time clock on its synthetic snapshot. -/
theorem C5_amended_created_at_read_time (w : AuWorld) (id func_name : String)
    (now : Nat) (info : TaskInfo)
    (hget : AuTaskStore.get_task w id now = some info) :
    info.created_at = now
    ∧ (AuTaskStore.create_task w id func_name now).2.created_at = now :=
  ⟨(AuTaskStore.get_task_some_cases w id now info hget).2.1, rfl⟩

/-- Claim C5, witness for the amended theorem at a concrete world. -/
theorem C5_witness :
    AuTaskStore.get_task pendingWorld "t4" 2 = some pendingInfo
    ∧ pendingInfo.created_at = 2
    ∧ (AuTaskStore.create_task pendingWorld "t4" "f" 2).2.created_at = 2 :=
  ⟨rfl, C5_amended_created_at_read_time pendingWorld "t4" "f" 2 pendingInfo rfl⟩

/-- Claim C6: update_task leaves the external store unchanged, and
create_task leaves the external store unchanged and returns the
synthetic snapshot with the given id in the PENDING state. -/
theorem C6_mutations_no_external_effect (w : AuWorld) (task_info : TaskInfo)
    (task_id func_name : String) (now : Nat) :
    AuTaskStore.update_task w task_info = w
    ∧ (AuTaskStore.create_task w task_id func_name now).1 = w
    ∧ (AuTaskStore.create_task w task_id func_name now).2 =
        { task_id := task_id, status := TaskStatus.pending, created_at := now,
          completed_at := none, result := none, error := none } :=
  ⟨rfl, rfl, rfl⟩

/-- Claim C7: submit_task delegates to the launch primitive of the
external backend exactly once, passing the caller-chosen task id through
as the native key, and never invokes the on_complete callback. -/
theorem C7_submit_delegates (b : AuBackendState) (task_id func : String)
    (args : List String) (kwargs : List (String × String))
    (callback : String → Option String → Option String → Unit) :
    (AuTaskExecutor.submit_task b task_id func args kwargs callback).1.launches
      = b.launches ++ [{ func := func, args := args, kwargs := kwargs,
                         key := task_id }]
    ∧ (AuTaskExecutor.submit_task b task_id func args kwargs callback).2 = [] :=
  ⟨rfl, rfl⟩

/-- Claim C8: delete_task returns whether the id existed; after the call
get_task on that id returns none; the membership of every other id, the
status oracle and the result oracle are unchanged, and on a missing id
the store is left entirely unchanged. -/
theorem C8_delete_semantics (w : AuWorld) (task_id : String) (now : Nat)
    (k : String) :
    (AuTaskStore.delete_task w task_id).2 = w.contains task_id
    ∧ AuTaskStore.get_task (AuTaskStore.delete_task w task_id).1 task_id now
        = none
    ∧ (AuTaskStore.delete_task w task_id).1.contains k
        = (!(k == task_id) && w.contains k)
    ∧ (AuTaskStore.delete_task w task_id).1.getStatus = w.getStatus
    ∧ (AuTaskStore.delete_task w task_id).1.getResult = w.getResult := by
  cases hc : w.contains task_id with
  | false =>
    have hd : AuTaskStore.delete_task w task_id = (w, false) := by
      unfold AuTaskStore.delete_task
      rw [if_neg (by simp [hc])]
    rw [hd]
    refine ⟨rfl, AuTaskStore.get_task_of_not_contains w task_id now hc,
      ?_, rfl, rfl⟩
    cases hk : k == task_id with
    | true =>
      have hkk : k = task_id := eq_of_beq hk
      subst hkk
      simp [hc]
    | false => simp
  | true =>
    have hd : AuTaskStore.delete_task w task_id =
        ({ contains := fun k => if k == task_id then false else w.contains k
           getStatus := w.getStatus
           getResult := w.getResult }, true) := by
      unfold AuTaskStore.delete_task
      rw [if_pos hc]
    rw [hd]
    refine ⟨rfl, ?_, ?_, rfl, rfl⟩
    · refine AuTaskStore.get_task_of_not_contains _ task_id now ?_
      simp
    · show (if k == task_id then false else w.contains k)
        = (!(k == task_id) && w.contains k)
      cases hk : k == task_id with
      | true => rfl
      | false => rfl

/-- Claim C9: get_task is total at the public interface: it returns none
or a record carrying the queried id; an unknown id yields none; a
failure of the status query yields none; and a failure of the result
probe on a COMPLETED task yields a record rather than an error. -/
theorem C9_get_task_total (w : AuWorld) (id : String) (now : Nat) :
    (AuTaskStore.get_task w id now = none
      ∨ ∃ info, AuTaskStore.get_task w id now = some info
          ∧ info.task_id = id)
    ∧ (w.contains id = false → AuTaskStore.get_task w id now = none)
    ∧ (∀ e, w.getStatus id = Except.error e →
        AuTaskStore.get_task w id now = none)
    ∧ (∀ e, w.contains id = true →
        w.getStatus id = Except.ok ComputationStatus.completed →
        w.getResult id = Except.error e →
        ∃ info, AuTaskStore.get_task w id now = some info
          ∧ info.status = TaskStatus.completed) := by
  refine ⟨?_,
    fun h => AuTaskStore.get_task_of_not_contains w id now h,
    fun e h => AuTaskStore.get_task_of_status_error w id now e h,
    fun e hc hs hr =>
      ⟨_, AuTaskStore.get_task_completed_error w id now e hc hs hr, rfl⟩⟩
  cases hg : AuTaskStore.get_task w id now with
  | none => exact Or.inl rfl
  | some info =>
    exact Or.inr ⟨info, rfl,
      (AuTaskStore.get_task_some_cases w id now info hg).1⟩

/-- Claim C10: the composition helpers bind one shared store to both
halves of the adapter: the TaskConfig of use_au_backend, of
use_au_thread_backend and of use_au_process_backend has its AuTaskStore
and its AuTaskExecutor constructed over the same external store, and the
convenience helpers wrap that same FileSystemStore in their backend. -/
theorem C10_shared_store (backend : Option ComputationBackendRef)
    (store : Option ComputationStoreRef)
    (storage_path : String) (ttl_seconds : Nat) :
    (use_au_backend backend store).store.au_store
      = (use_au_backend backend store).executor.au_store
    ∧ (use_au_thread_backend storage_path ttl_seconds).store.au_store
        = (use_au_thread_backend storage_path ttl_seconds).executor.au_store
    ∧ (use_au_process_backend storage_path ttl_seconds).store.au_store
        = (use_au_process_backend storage_path ttl_seconds).executor.au_store
    ∧ (use_au_thread_backend storage_path ttl_seconds).store.au_store
        = ComputationStoreRef.fileSystemStore storage_path ttl_seconds
    ∧ (use_au_thread_backend storage_path ttl_seconds).executor.au_backend
        = ComputationBackendRef.threadBackend
            (ComputationStoreRef.fileSystemStore storage_path ttl_seconds)
    ∧ (use_au_process_backend storage_path ttl_seconds).store.au_store
        = ComputationStoreRef.fileSystemStore storage_path ttl_seconds
    ∧ (use_au_process_backend storage_path ttl_seconds).executor.au_backend
        = ComputationBackendRef.processBackend
            (ComputationStoreRef.fileSystemStore storage_path ttl_seconds) :=
  ⟨rfl, rfl, rfl, rfl, rfl, rfl, rfl⟩
